import Mathlib

/-!
# Verification of the turn-completion arbitration pipeline

Shallow embedding of `pipecat-starters/natural_conversation/bot.py`:
the `OutputGate`, `StatementJudgeContextFilter`, `CompletenessCheck`
frame processors, the session `EventNotifier`, and the idle fallback.

Frame processors are modelled as pure functions from an input frame (and
direction) to a list of effects (frames pushed, notifier fired); the
`OutputGate` additionally carries explicit state (its `_gate_open` flag and
`_frames_buffer` list). The cooperative single-threaded execution of a
session is modelled as a sequence of atomic events consumed by a step
function.
-/

namespace NaturalConversation

/-- Direction of a frame through a processor (pipecat `FrameDirection`). -/
inductive FrameDirection where
  | downstream
  | upstream
deriving DecidableEq, Repr

/-- A typed content part of a structured message content list; the source
inspects `content["type"]` and reads `content["text"]`. -/
structure ContentPart where
  ctype : String
  text : String
deriving DecidableEq, Repr

/-- Content of a conversation message: either a plain string or a list of
typed content parts. -/
inductive MessageContent where
  | str (s : String)
  | parts (ps : List ContentPart)
deriving DecidableEq, Repr

/-- A role-tagged conversation message (`{"role": ..., "content": ...}`). -/
structure Message where
  role : String
  content : MessageContent
deriving DecidableEq, Repr

/-- The frames the arbitration pipeline distinguishes. `dataFrame` stands for
any other non-system frame (e.g. TTS audio) flowing through the gate. -/
inductive Frame where
  | startFrame
  | endFrame
  | cancelFrame
  | startInterruption
  | stopInterruption
  | userStoppedSpeaking
  | textFrame (text : String)
  | llmMessages (messages : List Message)
  | contextFrame (messages : List Message)
  | dataFrame (id : Nat)
deriving DecidableEq, Repr

/-- Which frames are `SystemFrame`s in pipecat's hierarchy (start, cancel,
interruption and speaking control frames are; text, message-list, context and
data frames are not; `EndFrame` is a `ControlFrame`, not a `SystemFrame`). -/
def Frame.isSystem : Frame → Bool
  | .startFrame => true
  | .cancelFrame => true
  | .startInterruption => true
  | .stopInterruption => true
  | .userStoppedSpeaking => true
  | _ => false

/-- State of an `OutputGate`: the `_gate_open` flag and the
`_frames_buffer` list of `(frame, direction)` pairs. -/
structure GateState where
  gate_open : Bool
  frames_buffer : List (Frame × FrameDirection)
deriving DecidableEq, Repr

/-- `OutputGate.close_gate`. -/
def close_gate (s : GateState) : GateState :=
  { s with gate_open := false }

/-- `OutputGate.open_gate`. -/
def open_gate (s : GateState) : GateState :=
  { s with gate_open := true }

/-- `OutputGate.process_frame`: system frames are pushed through immediately
(a `StartFrame` runs `_start`, which resets the buffer; a
`StartInterruptionFrame` clears the buffer and closes the gate); frames not
travelling downstream pass through; with the gate open, downstream frames
pass through; otherwise the frame is appended to the buffer and nothing is
pushed. Returns the new state and the list of frames pushed. -/
def OutputGate.processFrame (s : GateState) (f : Frame) (d : FrameDirection) :
    GateState × List (Frame × FrameDirection) :=
  if f.isSystem then
    let s1 := if f = .startFrame then { s with frames_buffer := [] } else s
    let s2 := if f = .startInterruption then
        close_gate { s1 with frames_buffer := [] } else s1
    (s2, [(f, d)])
  else if d ≠ .downstream then
    (s, [(f, d)])
  else if s.gate_open then
    (s, [(f, d)])
  else
    ({ s with frames_buffer := s.frames_buffer ++ [(f, d)] }, [])

/-- One iteration of `OutputGate._gate_task_handler` after `wait()` returns:
open the gate, push every buffered `(frame, direction)` pair in order, then
clear the buffer. Returns the new state and the pushed frames. -/
def OutputGate.flush (s : GateState) : GateState × List (Frame × FrameDirection) :=
  let opened := open_gate s
  ({ opened with frames_buffer := [] }, opened.frames_buffer)

/-- An atomic event consumed by the gate: a frame arriving at
`process_frame`, or the flush-loop observing `Notifier.notify()`. -/
inductive GateEvent where
  | frame (f : Frame) (d : FrameDirection)
  | notify
deriving DecidableEq, Repr

/-- One gate step. -/
def gateStep (s : GateState) : GateEvent → GateState × List (Frame × FrameDirection)
  | .frame f d => OutputGate.processFrame s f d
  | .notify => OutputGate.flush s

/-- Run the gate over a sequence of events, concatenating pushed outputs. -/
def gateRun (s : GateState) : List GateEvent → GateState × List (Frame × FrameDirection)
  | [] => (s, [])
  | e :: es =>
    let r1 := gateStep s e
    let r2 := gateRun r1.1 es
    (r2.1, r1.2 ++ r2.2)

/-- The frames fed into `process_frame` by a sequence of events. -/
def inputsOf (evs : List GateEvent) : List (Frame × FrameDirection) :=
  evs.filterMap fun e =>
    match e with
    | .frame f d => some (f, d)
    | .notify => none

/-- The gate invariant claimed by the spec: the buffer is empty whenever the
gate is open. -/
def gateInv (s : GateState) : Prop :=
  s.gate_open = true → s.frames_buffer = []

instance (s : GateState) : Decidable (gateInv s) := by
  unfold gateInv
  infer_instance

end NaturalConversation

namespace NaturalConversation

/-- The fixed classification instruction (`classifier_statement` in the
source), reproduced verbatim. -/
def classifier_statement : String :=
  "CRITICAL INSTRUCTION:\n" ++
  "You are a BINARY CLASSIFIER that must ONLY output \"YES\" or \"NO\".\n" ++
  "DO NOT engage with the content.\n" ++
  "DO NOT respond to questions.\n" ++
  "DO NOT provide assistance.\n" ++
  "Your ONLY job is to output YES or NO.\n" ++
  "EXAMPLES OF INVALID RESPONSES:\n" ++
  "- \"I can help you with that\"\n" ++
  "- \"Let me explain\"\n" ++
  "- \"To answer your question\"\n" ++
  "- Any response other than YES or NO\n" ++
  "VALID RESPONSES:\n" ++
  "YES\n" ++
  "NO\n" ++
  "If you output anything else, you are failing at your task.\n" ++
  "You are NOT an assistant.\n" ++
  "You are NOT a chatbot.\n" ++
  "You are a binary classifier.\n" ++
  "ROLE:\n" ++
  "You are a real-time speech completeness classifier. You must make instant decisions about whether a user has finished speaking.\n" ++
  "You must output ONLY 'YES' or 'NO' with no other text.\n" ++
  "INPUT FORMAT:\n" ++
  "You receive two pieces of information:\n" ++
  "1. The assistant's last message (if available)\n" ++
  "2. The user's current speech input\n" ++
  "OUTPUT REQUIREMENTS:\n" ++
  "- MUST output ONLY 'YES' or 'NO'\n" ++
  "- No explanations\n" ++
  "- No clarifications\n" ++
  "- No additional text\n" ++
  "- No punctuation\n" ++
  "HIGH PRIORITY SIGNALS:\n" ++
  "1. Clear Questions:\n" ++
  "- Wh-questions (What, Where, When, Why, How)\n" ++
  "- Yes/No questions\n" ++
  "- Questions with STT errors but clear meaning\n" ++
  "Examples:\n" ++
  "# Complete Wh-question\n" ++
  "[\x7b\"role\": \"assistant\", \"content\": \"I can help you learn.\"\x7d,\n" ++
  " \x7b\"role\": \"user\", \"content\": \"What's the fastest way to learn Spanish\"\x7d]\n" ++
  "Output: YES\n" ++
  "# Complete Yes/No question despite STT error\n" ++
  "[\x7b\"role\": \"assistant\", \"content\": \"I know about planets.\"\x7d,\n" ++
  " \x7b\"role\": \"user\", \"content\": \"Is is Jupiter the biggest planet\"\x7d]\n" ++
  "Output: YES\n" ++
  "2. Complete Commands:\n" ++
  "- Direct instructions\n" ++
  "- Clear requests\n" ++
  "- Action demands\n" ++
  "- Complete statements needing response\n" ++
  "Examples:\n" ++
  "# Direct instruction\n" ++
  "[\x7b\"role\": \"assistant\", \"content\": \"I can explain many topics.\"\x7d,\n" ++
  " \x7b\"role\": \"user\", \"content\": \"Tell me about black holes\"\x7d]\n" ++
  "Output: YES\n" ++
  "# Action demand\n" ++
  "[\x7b\"role\": \"assistant\", \"content\": \"I can help with math.\"\x7d,\n" ++
  " \x7b\"role\": \"user\", \"content\": \"Solve this equation x plus 5 equals 12\"\x7d]\n" ++
  "Output: YES\n" ++
  "3. Direct Responses:\n" ++
  "- Answers to specific questions\n" ++
  "- Option selections\n" ++
  "- Clear acknowledgments with completion\n" ++
  "Examples:\n" ++
  "# Specific answer\n" ++
  "[\x7b\"role\": \"assistant\", \"content\": \"What's your favorite color?\"\x7d,\n" ++
  " \x7b\"role\": \"user\", \"content\": \"I really like blue\"\x7d]\n" ++
  "Output: YES\n" ++
  "# Option selection\n" ++
  "[\x7b\"role\": \"assistant\", \"content\": \"Would you prefer morning or evening?\"\x7d,\n" ++
  " \x7b\"role\": \"user\", \"content\": \"Morning\"\x7d]\n" ++
  "Output: YES\n" ++
  "MEDIUM PRIORITY SIGNALS:\n" ++
  "1. Speech Pattern Completions:\n" ++
  "- Self-corrections reaching completion\n" ++
  "- False starts with clear ending\n" ++
  "- Topic changes with complete thought\n" ++
  "- Mid-sentence completions\n" ++
  "Examples:\n" ++
  "# Self-correction reaching completion\n" ++
  "[\x7b\"role\": \"assistant\", \"content\": \"What would you like to know?\"\x7d,\n" ++
  " \x7b\"role\": \"user\", \"content\": \"Tell me about... no wait, explain how rainbows form\"\x7d]\n" ++
  "Output: YES\n" ++
  "# Topic change with complete thought\n" ++
  "[\x7b\"role\": \"assistant\", \"content\": \"The weather is nice today.\"\x7d,\n" ++
  " \x7b\"role\": \"user\", \"content\": \"Actually can you tell me who invented the telephone\"\x7d]\n" ++
  "Output: YES\n" ++
  "# Mid-sentence completion\n" ++
  "[\x7b\"role\": \"assistant\", \"content\": \"Hello I'm ready.\"\x7d,\n" ++
  " \x7b\"role\": \"user\", \"content\": \"What's the capital of? France\"\x7d]\n" ++
  "Output: YES\n" ++
  "2. Context-Dependent Brief Responses:\n" ++
  "- Acknowledgments (okay, sure, alright)\n" ++
  "- Agreements (yes, yeah)\n" ++
  "- Disagreements (no, nah)\n" ++
  "- Confirmations (correct, exactly)\n" ++
  "Examples:\n" ++
  "# Acknowledgment\n" ++
  "[\x7b\"role\": \"assistant\", \"content\": \"Should we talk about history?\"\x7d,\n" ++
  " \x7b\"role\": \"user\", \"content\": \"Sure\"\x7d]\n" ++
  "Output: YES\n" ++
  "# Disagreement with completion\n" ++
  "[\x7b\"role\": \"assistant\", \"content\": \"Is that what you meant?\"\x7d,\n" ++
  " \x7b\"role\": \"user\", \"content\": \"No not really\"\x7d]\n" ++
  "Output: YES\n" ++
  "LOW PRIORITY SIGNALS:\n" ++
  "1. STT Artifacts (Consider but don't over-weight):\n" ++
  "- Repeated words\n" ++
  "- Unusual punctuation\n" ++
  "- Capitalization errors\n" ++
  "- Word insertions/deletions\n" ++
  "Examples:\n" ++
  "# Word repetition but complete\n" ++
  "[\x7b\"role\": \"assistant\", \"content\": \"I can help with that.\"\x7d,\n" ++
  " \x7b\"role\": \"user\", \"content\": \"What what is the time right now\"\x7d]\n" ++
  "Output: YES\n" ++
  "# Missing punctuation but complete\n" ++
  "[\x7b\"role\": \"assistant\", \"content\": \"I can explain that.\"\x7d,\n" ++
  " \x7b\"role\": \"user\", \"content\": \"Please tell me how computers work\"\x7d]\n" ++
  "Output: YES\n" ++
  "2. Speech Features:\n" ++
  "- Filler words (um, uh, like)\n" ++
  "- Thinking pauses\n" ++
  "- Word repetitions\n" ++
  "- Brief hesitations\n" ++
  "Examples:\n" ++
  "# Filler words but complete\n" ++
  "[\x7b\"role\": \"assistant\", \"content\": \"What would you like to know?\"\x7d,\n" ++
  " \x7b\"role\": \"user\", \"content\": \"Um uh how do airplanes fly\"\x7d]\n" ++
  "Output: YES\n" ++
  "# Thinking pause but incomplete\n" ++
  "[\x7b\"role\": \"assistant\", \"content\": \"I can explain anything.\"\x7d,\n" ++
  " \x7b\"role\": \"user\", \"content\": \"Well um I want to know about the\"\x7d]\n" ++
  "Output: NO\n" ++
  "DECISION RULES:\n" ++
  "1. Return YES if:\n" ++
  "- ANY high priority signal shows clear completion\n" ++
  "- Medium priority signals combine to show completion\n" ++
  "- Meaning is clear despite low priority artifacts\n" ++
  "2. Return NO if:\n" ++
  "- No high priority signals present\n" ++
  "- Thought clearly trails off\n" ++
  "- Multiple incomplete indicators\n" ++
  "- User appears mid-formulation\n" ++
  "3. When uncertain:\n" ++
  "- If you can understand the intent → YES\n" ++
  "- If meaning is unclear → NO\n" ++
  "- Always make a binary decision\n" ++
  "- Never request clarification\n" ++
  "Examples:\n" ++
  "# Incomplete despite corrections\n" ++
  "[\x7b\"role\": \"assistant\", \"content\": \"What would you like to know about?\"\x7d,\n" ++
  " \x7b\"role\": \"user\", \"content\": \"Can you tell me about\"\x7d]\n" ++
  "Output: NO\n" ++
  "# Complete despite multiple artifacts\n" ++
  "[\x7b\"role\": \"assistant\", \"content\": \"I can help you learn.\"\x7d,\n" ++
  " \x7b\"role\": \"user\", \"content\": \"How do you I mean what's the best way to learn programming\"\x7d]\n" ++
  "Output: YES\n" ++
  "# Trailing off incomplete\n" ++
  "[\x7b\"role\": \"assistant\", \"content\": \"I can explain anything.\"\x7d,\n" ++
  " \x7b\"role\": \"user\", \"content\": \"I was wondering if you could tell me why\"\x7d]\n" ++
  "Output: NO\n" ++
  ""

end NaturalConversation
namespace NaturalConversation

/-- The body of the inner loop over a list-valued `message["content"]`:
`for content in message["content"]: if content["type"] == "text":
user_text_messages.insert(0, content["text"])`. The accumulator is the
`user_text_messages` list; `insert(0, x)` is `x :: acc`. -/
def insertParts (acc : List String) : List ContentPart → List String
  | [] => acc
  | p :: ps => insertParts (if p.ctype = "text" then p.text :: acc else acc) ps

/-- The loop `for message in reversed(messages)` of
`StatementJudgeContextFilter.process_frame`, operating on the already
reversed message list: user-role entries contribute to `user_text_messages`
(string contents are appended, text parts are inserted at position 0); the
first non-user entry stops the loop and is remembered as
`last_assistant_message` when assistant-authored. -/
def collectUser : List Message → List String → List String × Option Message
  | [], acc => (acc, none)
  | m :: rest, acc =>
    if m.role ≠ "user" then
      (acc, if m.role = "assistant" then some m else none)
    else
      match m.content with
      | .str s => collectUser rest (acc ++ [s])
      | .parts ps => collectUser rest (insertParts acc ps)

/-- The `OpenAILLMContextFrame` branch of
`StatementJudgeContextFilter.process_frame`: walk the messages backward
collecting trailing user text, and if any was found, return the message list
of the emitted `LLMMessagesFrame` (system instruction, optional last
assistant message, synthesized user message holding
`" ".flatten(reversed(user_text_messages))`). -/
def processContextFrame (msgs : List Message) : Option (List Message) :=
  let r := collectUser msgs.reverse []
  if r.1.isEmpty then none
  else
    let user_message := " ".intercalate r.1.reverse
    some ([⟨"system", .str classifier_statement⟩]
      ++ (match r.2 with
          | some m => [m]
          | none => [])
      ++ [⟨"user", .str user_message⟩])

/-- An observable effect of a reactive frame processor: a frame pushed (with
its direction), or `Notifier.notify()` fired. Effects are listed in the
order the source performs them. -/
inductive Action where
  | push (f : Frame) (d : FrameDirection)
  | notify
deriving DecidableEq, Repr

/-- `StatementJudgeContextFilter.process_frame` as an effect trace: system
frames pass through; an `LLMMessagesFrame` only fires the notifier; an
`OpenAILLMContextFrame` may push one classification-request
`LLMMessagesFrame` downstream; everything else is dropped on this branch. -/
def StatementJudgeContextFilter.processFrame (f : Frame) (d : FrameDirection) :
    List Action :=
  if f.isSystem then [.push f d]
  else
    match f with
    | .llmMessages _ => [.notify]
    | .contextFrame msgs =>
      match processContextFrame msgs with
      | some out => [.push (.llmMessages out) .downstream]
      | none => []
    | _ => []

/-- `CompletenessCheck.process_frame` as an effect trace: a `TextFrame`
holding exactly `"YES"` pushes a `UserStoppedSpeakingFrame` downstream and
then fires the notifier; exactly `"NO"` does nothing; any other frame is
pushed through unmodified. -/
def CompletenessCheck.processFrame (f : Frame) (d : FrameDirection) :
    List Action :=
  match f with
  | .textFrame t =>
    if t = "YES" then [.push .userStoppedSpeaking .downstream, .notify]
    else if t = "NO" then []
    else [.push f d]
  | _ => [.push f d]

/-- Modelled from the spec: the session `Notifier` is
`pipecat.sync.event_notifier.EventNotifier`, which lives in the external
pipecat library (the repository only instantiates it); per the spec it is a
re-armable single-slot signal whose state is one pending flag. `notify()`
sets the flag unconditionally, so a second call before any wait is a no-op
on the pending state. -/
def EventNotifier.notify (_pending : Bool) : Bool :=
  true

/-- Modelled from the spec: `EventNotifier.wait()` returns immediately
(clearing the pending flag) when a notification is pending, and otherwise
suspends, modelled as `none`. The result is the wait outcome paired with the
new pending flag. -/
def EventNotifier.wait (pending : Bool) : Option Unit × Bool :=
  if pending then (some (), false) else (none, pending)

end NaturalConversation

namespace NaturalConversation

/-- The `timeout=5.0` (seconds) passed to `UserIdleProcessor` in `run_bot`. -/
def user_idle_timeout : Nat :=
  5

/-- The `user_idle_notifier` callback from `run_bot`: it fires
`notifier.notify()` unconditionally. -/
def user_idle_notifier (pending : Bool) : Bool :=
  EventNotifier.notify pending

/-- Combined per-session state for the idle-fallback liveness argument: the
notifier pending flag, the gate state, and the idle timer's elapsed seconds. -/
structure SessionState where
  notifier_pending : Bool
  gate : GateState
  idle_elapsed : Nat
deriving DecidableEq, Repr

/-- Modelled from the spec: one second of user inactivity observed by the
external `pipecat.processors.user_idle_processor.UserIdleProcessor` timer;
when the elapsed time reaches the configured timeout the processor invokes
its callback, here `user_idle_notifier`. -/
def idleTick (s : SessionState) : SessionState :=
  if s.idle_elapsed + 1 ≥ user_idle_timeout then
    { s with
        idle_elapsed := s.idle_elapsed + 1
        notifier_pending := user_idle_notifier s.notifier_pending }
  else
    { s with idle_elapsed := s.idle_elapsed + 1 }

/-- Modelled from the spec: an inbound frame indicating user activity
restarts the `UserIdleProcessor` timer. -/
def idleActivity (s : SessionState) : SessionState :=
  { s with idle_elapsed := 0 }

/-- `n` consecutive seconds of inactivity. -/
def idleTicks : Nat → SessionState → SessionState
  | 0, s => s
  | n + 1, s => idleTicks n (idleTick s)

/-- One iteration of the gate's flush-loop at session level: `wait()` on the
notifier, and on release, flush the gate. Returns the new session state and
the frames pushed. -/
def gateLoopStep (s : SessionState) : SessionState × List (Frame × FrameDirection) :=
  match EventNotifier.wait s.notifier_pending with
  | (some _, p) =>
    let r := OutputGate.flush s.gate
    ({ s with notifier_pending := p, gate := r.1 }, r.2)
  | (none, _) => (s, [])

end NaturalConversation

namespace NaturalConversation

lemma gateRun_closed_buffers (s : GateState) (fs : List (Frame × FrameDirection))
    (hclosed : s.gate_open = false)
    (hfs : ∀ p ∈ fs, p.1.isSystem = false ∧ p.2 = FrameDirection.downstream) :
    gateRun s (fs.map fun p => GateEvent.frame p.1 p.2) =
      ({ s with frames_buffer := s.frames_buffer ++ fs }, []) := by
  induction fs generalizing s with
  | nil => simp [gateRun]
  | cons p rest ih =>
    obtain ⟨hsys, hdir⟩ := hfs p (by simp)
    have hrest : ∀ q ∈ rest, q.1.isSystem = false ∧ q.2 = FrameDirection.downstream :=
      fun q hq => hfs q (by simp [hq])
    have hp : ((p.1, FrameDirection.downstream) : Frame × FrameDirection) = p := by
      rw [← hdir]
    simp only [List.map_cons, gateRun, gateStep, OutputGate.processFrame, hsys, hdir, hclosed,
      Bool.false_eq_true, if_false, ne_eq, not_true_eq_false, ite_false]
    rw [hp, ih _ rfl hrest]
    simp

lemma mem_inputsOf_cons (e : GateEvent) (rest : List GateEvent) (p : Frame × FrameDirection)
    (h : p ∈ inputsOf rest) : p ∈ inputsOf (e :: rest) := by
  cases e <;> simp_all [inputsOf, List.filterMap_cons]

lemma gateStep_mem (s : GateState) (e : GateEvent) (p : Frame × FrameDirection)
    (h : p ∈ (gateStep s e).2 ∨ p ∈ (gateStep s e).1.frames_buffer) :
    (∃ f d, e = .frame f d ∧ p = (f, d)) ∨ p ∈ s.frames_buffer := by
  cases e with
  | notify =>
    simp only [gateStep, OutputGate.flush, open_gate] at h
    rcases h with h | h
    · exact Or.inr h
    · simp at h
  | frame f d =>
    simp only [gateStep, OutputGate.processFrame] at h
    split at h
    · rcases h with h | h
      · simp at h
        exact Or.inl ⟨f, d, rfl, h⟩
      · split at h <;> split at h <;> simp_all [close_gate]
    · split at h
      · rcases h with h | h
        · simp at h
          exact Or.inl ⟨f, d, rfl, h⟩
        · exact Or.inr h
      · split at h
        · rcases h with h | h
          · simp at h
            exact Or.inl ⟨f, d, rfl, h⟩
          · exact Or.inr h
        · rcases h with h | h
          · simp at h
          · simp at h
            rcases h with h | h
            · exact Or.inr h
            · exact Or.inl ⟨f, d, rfl, by simp [h]⟩

lemma gateRun_mem (evs : List GateEvent) (s : GateState) (p : Frame × FrameDirection)
    (h : p ∈ (gateRun s evs).2 ∨ p ∈ (gateRun s evs).1.frames_buffer) :
    p ∈ inputsOf evs ∨ p ∈ s.frames_buffer := by
  induction evs generalizing s with
  | nil =>
    simp only [gateRun] at h
    rcases h with h | h
    · simp at h
    · exact Or.inr h
  | cons e rest ih =>
    simp only [gateRun, List.mem_append] at h
    have hstep := gateStep_mem s e p
    have hin : ∀ f d, e = GateEvent.frame f d → p = (f, d) → p ∈ inputsOf (e :: rest) := by
      intro f d he hp
      subst he
      simp [inputsOf, hp]
    have hrest : p ∈ (gateRun (gateStep s e).1 rest).2 ∨
        p ∈ (gateRun (gateStep s e).1 rest).1.frames_buffer →
        p ∈ inputsOf (e :: rest) ∨ p ∈ s.frames_buffer := by
      intro hh
      rcases ih (gateStep s e).1 hh with hi | hb
      · exact Or.inl (mem_inputsOf_cons e rest p hi)
      · rcases hstep (Or.inr hb) with ⟨f, d, he, hp⟩ | hb2
        · exact Or.inl (hin f d he hp)
        · exact Or.inr hb2
    rcases h with (h | h) | h
    · rcases hstep (Or.inl h) with ⟨f, d, he, hp⟩ | hb
      · exact Or.inl (hin f d he hp)
      · exact Or.inr hb
    · exact hrest (Or.inl h)
    · exact hrest (Or.inr h)

end NaturalConversation

namespace NaturalConversation

/-- C1. No premature delivery: starting from a closed `OutputGate`, a
sequence of downstream-directed non-control (non-system) frames pushed into
`process_frame` produces no output at the downstream sink (no `push_frame`
happens) as long as the flush-loop has not observed `Notifier.notify()`;
each such frame is appended to the buffer in order, and the gate stays
closed. -/
theorem outputGate_no_premature_delivery (s : GateState)
    (fs : List (Frame × FrameDirection))
    (hclosed : s.gate_open = false)
    (hfs : ∀ p ∈ fs, p.1.isSystem = false ∧ p.2 = FrameDirection.downstream) :
    (gateRun s (fs.map fun p => GateEvent.frame p.1 p.2)).2 = [] ∧
    (gateRun s (fs.map fun p => GateEvent.frame p.1 p.2)).1.frames_buffer =
      s.frames_buffer ++ fs ∧
    (gateRun s (fs.map fun p => GateEvent.frame p.1 p.2)).1.gate_open = false := by
  rw [gateRun_closed_buffers s fs hclosed hfs]
  exact ⟨rfl, rfl, hclosed ▸ rfl⟩

/-- Witness for C1 at a concrete closed gate and two data frames. -/
theorem outputGate_no_premature_delivery_w :
    (gateRun ⟨false, []⟩
      ([((Frame.dataFrame 0, FrameDirection.downstream)),
        ((Frame.dataFrame 1, FrameDirection.downstream))].map
        fun p => GateEvent.frame p.1 p.2)).2 = [] ∧
    (gateRun ⟨false, []⟩
      ([((Frame.dataFrame 0, FrameDirection.downstream)),
        ((Frame.dataFrame 1, FrameDirection.downstream))].map
        fun p => GateEvent.frame p.1 p.2)).1.frames_buffer =
      ([] : List (Frame × FrameDirection)) ++
        [((Frame.dataFrame 0, FrameDirection.downstream)),
         ((Frame.dataFrame 1, FrameDirection.downstream))] ∧
    (gateRun ⟨false, []⟩
      ([((Frame.dataFrame 0, FrameDirection.downstream)),
        ((Frame.dataFrame 1, FrameDirection.downstream))].map
        fun p => GateEvent.frame p.1 p.2)).1.gate_open = false :=
  outputGate_no_premature_delivery ⟨false, []⟩
    [((Frame.dataFrame 0, FrameDirection.downstream)),
     ((Frame.dataFrame 1, FrameDirection.downstream))] (by decide) (by decide)

/-- C2. Order preservation on flush: one iteration of the flush-loop pushes
exactly the buffered `(frame, direction)` pairs, in their original arrival
order, each exactly once (the output list *is* the buffer list), and
afterwards the buffer is empty and the gate is open. -/
theorem outputGate_flush_order (s : GateState) :
    (OutputGate.flush s).2 = s.frames_buffer ∧
    (OutputGate.flush s).1.frames_buffer = [] ∧
    (OutputGate.flush s).1.gate_open = true :=
  ⟨rfl, rfl, rfl⟩

/-- C3. Interruption discard: a `StartInterruptionFrame` arriving at the
gate clears the buffer and forces the gate closed; a stale notification
afterwards opens the gate but delivers nothing; and a frame that was in the
buffer at the interruption is never delivered by any later sequence of
events that does not re-introduce it at the input. -/
theorem outputGate_interruption_discard (s : GateState) (d : FrameDirection)
    (evs : List GateEvent) (p : Frame × FrameDirection)
    (_hp : p ∈ s.frames_buffer) (hnotin : p ∉ inputsOf evs) :
    (OutputGate.processFrame s .startInterruption d).1.frames_buffer = [] ∧
    (OutputGate.processFrame s .startInterruption d).1.gate_open = false ∧
    (OutputGate.flush (OutputGate.processFrame s .startInterruption d).1).2 = [] ∧
    (OutputGate.flush
      (OutputGate.processFrame s .startInterruption d).1).1.gate_open = true ∧
    p ∉ (gateRun (OutputGate.processFrame s .startInterruption d).1 evs).2 := by
  have hstate : (OutputGate.processFrame s .startInterruption d).1 =
      ⟨false, []⟩ := by
    simp [OutputGate.processFrame, Frame.isSystem, close_gate]
  refine ⟨by rw [hstate], by rw [hstate], by rw [hstate]; rfl, by rw [hstate]; rfl, ?_⟩
  intro hmem
  rw [hstate] at hmem
  rcases gateRun_mem evs ⟨false, []⟩ p (Or.inl hmem) with hi | hb
  · exact hnotin hi
  · simp at hb

/-- Witness for C3: one buffered frame, an interruption, then a stale
notification. -/
theorem outputGate_interruption_discard_w :
    (OutputGate.processFrame ⟨false, [(Frame.dataFrame 7, FrameDirection.downstream)]⟩
      .startInterruption FrameDirection.downstream).1.frames_buffer = [] ∧
    (OutputGate.processFrame ⟨false, [(Frame.dataFrame 7, FrameDirection.downstream)]⟩
      .startInterruption FrameDirection.downstream).1.gate_open = false ∧
    (OutputGate.flush (OutputGate.processFrame
      ⟨false, [(Frame.dataFrame 7, FrameDirection.downstream)]⟩
      .startInterruption FrameDirection.downstream).1).2 = [] ∧
    (OutputGate.flush (OutputGate.processFrame
      ⟨false, [(Frame.dataFrame 7, FrameDirection.downstream)]⟩
      .startInterruption FrameDirection.downstream).1).1.gate_open = true ∧
    (Frame.dataFrame 7, FrameDirection.downstream) ∉
      (gateRun (OutputGate.processFrame
        ⟨false, [(Frame.dataFrame 7, FrameDirection.downstream)]⟩
        .startInterruption FrameDirection.downstream).1 [GateEvent.notify]).2 :=
  outputGate_interruption_discard
    ⟨false, [(Frame.dataFrame 7, FrameDirection.downstream)]⟩
    FrameDirection.downstream [GateEvent.notify]
    (Frame.dataFrame 7, FrameDirection.downstream) (by decide) (by decide)

/-- C4 counterexample: the invariant "buffer empty whenever the gate is
open" does *not* hold at the point of the flush-loop between `open_gate()`
and clearing the buffer. The state with one buffered frame is reachable
from an empty closed gate; it satisfies the invariant, but the intermediate
state right after `open_gate()` (gate open, buffer still full) violates
it. -/
theorem gateInv_transient_violation :
    (OutputGate.processFrame ⟨false, []⟩ (Frame.dataFrame 0)
      FrameDirection.downstream).1 =
      ⟨false, [(Frame.dataFrame 0, FrameDirection.downstream)]⟩ ∧
    gateInv ⟨false, [(Frame.dataFrame 0, FrameDirection.downstream)]⟩ ∧
    ¬ gateInv (open_gate ⟨false, [(Frame.dataFrame 0, FrameDirection.downstream)]⟩) := by
  refine ⟨by decide, by decide, ?_⟩
  intro h
  simpa [open_gate] using h rfl

/-- C4 amended: the invariant holds at every *operation boundary* — it is
preserved by `process_frame` (for every frame and direction) and by a
complete flush-loop iteration — though it is transiently violated inside
the flush-loop between opening the gate and emptying the buffer. -/
theorem gateInv_preserved (s : GateState) (hs : gateInv s) :
    (∀ f d, gateInv (OutputGate.processFrame s f d).1) ∧
    gateInv (OutputGate.flush s).1 := by
  constructor
  · intro f d
    unfold OutputGate.processFrame
    split
    · split <;> split <;> simp_all [gateInv, close_gate]
    · split
      · exact hs
      · split
        · exact hs
        · intro hopen
          simp_all [gateInv]
  · intro _
    rfl

/-- Witness for C4 amended at a concrete closed, buffered state. -/
theorem gateInv_preserved_w :
    (∀ f d, gateInv (OutputGate.processFrame
      ⟨false, [(Frame.dataFrame 3, FrameDirection.downstream)]⟩ f d).1) ∧
    gateInv (OutputGate.flush
      ⟨false, [(Frame.dataFrame 3, FrameDirection.downstream)]⟩).1 :=
  gateInv_preserved ⟨false, [(Frame.dataFrame 3, FrameDirection.downstream)]⟩
    (by decide)

end NaturalConversation

namespace NaturalConversation

/-- C5. Coalesced notify: a second `notify()` before any `wait()` is a no-op
on the pending state; after a `notify()`, a single `wait()` returns
immediately (clearing the flag), and a second `wait()` does not return —
so exactly one waiter is released per notification. -/
theorem notifier_coalesced (p : Bool) :
    EventNotifier.notify (EventNotifier.notify p) = EventNotifier.notify p ∧
    EventNotifier.wait (EventNotifier.notify p) = (some (), false) ∧
    (EventNotifier.wait (EventNotifier.wait (EventNotifier.notify p)).2).1 = none := by
  refine ⟨rfl, rfl, rfl⟩

/-- C7. Completeness check case analysis: a `TextFrame` equal to `"YES"`
pushes a `UserStoppedSpeakingFrame` downstream and then (in that order)
fires the notifier exactly once; `"NO"` produces no effect at all; any other
text is pushed through unmodified. -/
theorem completeness_check_cases (t : String) (d : FrameDirection) :
    CompletenessCheck.processFrame (.textFrame "YES") d =
      [.push .userStoppedSpeaking .downstream, .notify] ∧
    CompletenessCheck.processFrame (.textFrame "NO") d = [] ∧
    (t ≠ "YES" → t ≠ "NO" →
      CompletenessCheck.processFrame (.textFrame t) d = [.push (.textFrame t) d]) := by
  refine ⟨rfl, rfl, fun hy hn => ?_⟩
  simp [CompletenessCheck.processFrame, hy, hn]

/-- Witness for C7 at the off-case text `"MAYBE"`. -/
theorem completeness_check_cases_w :
    CompletenessCheck.processFrame (.textFrame "MAYBE") FrameDirection.downstream =
      [.push (.textFrame "MAYBE") FrameDirection.downstream] :=
  (completeness_check_cases "MAYBE" FrameDirection.downstream).2.2
    (by decide) (by decide)

/-- C8. Classifier bypass: an `LLMMessagesFrame` arriving at the
`StatementJudgeContextFilter` fires the notifier and produces no
classification request frame (its whole effect trace is the single
notification). -/
theorem bypass_fires_notifier (msgs : List Message) (d : FrameDirection) :
    StatementJudgeContextFilter.processFrame (.llmMessages msgs) d = [.notify] :=
  rfl

/-- C10. The bypass path emits no synthetic turn-end frame: handling an
`LLMMessagesFrame` produces the notification and nothing else — in
particular no `push` effect at all, so the frame is consumed rather than
forwarded and no `UserStoppedSpeakingFrame` is emitted — unlike the
`CompletenessCheck` `"YES"` path, whose effect trace does push a
`UserStoppedSpeakingFrame`. -/
theorem bypass_emits_nothing (msgs : List Message) (d d' : FrameDirection) :
    StatementJudgeContextFilter.processFrame (.llmMessages msgs) d = [.notify] ∧
    (∀ f dd, Action.push f dd ∉
      StatementJudgeContextFilter.processFrame (.llmMessages msgs) d) ∧
    Action.push .userStoppedSpeaking .downstream ∈
      CompletenessCheck.processFrame (.textFrame "YES") d' := by
  refine ⟨rfl, ?_, by simp [CompletenessCheck.processFrame]⟩
  intro f dd h
  simp [StatementJudgeContextFilter.processFrame, Frame.isSystem] at h

end NaturalConversation

namespace NaturalConversation

/-- C9. Idle liveness: the idle timer is restarted by user activity; after
`user_idle_timeout` (5) seconds with no activity and no classifier output at
all, the `user_idle_notifier` callback has fired the notifier
unconditionally, and the next flush-loop iteration opens the gate — a
closed gate cannot stay closed forever. -/
theorem idle_fallback_opens_gate (s : SessionState)
    (hgate : s.gate.gate_open = false)
    (hpend : s.notifier_pending = false)
    (helapsed : s.idle_elapsed = 0) :
    (idleActivity s).idle_elapsed = 0 ∧
    (idleTicks user_idle_timeout s).notifier_pending = true ∧
    (gateLoopStep (idleTicks user_idle_timeout s)).1.gate.gate_open = true := by
  obtain ⟨p, g, e⟩ := s
  simp only at hgate hpend helapsed
  subst hpend helapsed
  refine ⟨rfl, ?_, ?_⟩ <;>
    simp [idleTicks, idleTick, user_idle_timeout, user_idle_notifier,
      EventNotifier.notify, EventNotifier.wait, gateLoopStep, idleActivity,
      OutputGate.flush, open_gate]

/-- Witness for C9 at a concrete fresh session. -/
theorem idle_fallback_opens_gate_w :
    (idleActivity ⟨false, ⟨false, []⟩, 0⟩).idle_elapsed = 0 ∧
    (idleTicks user_idle_timeout ⟨false, ⟨false, []⟩, 0⟩).notifier_pending = true ∧
    (gateLoopStep (idleTicks user_idle_timeout
      ⟨false, ⟨false, []⟩, 0⟩)).1.gate.gate_open = true :=
  idle_fallback_opens_gate ⟨false, ⟨false, []⟩, 0⟩ rfl rfl rfl

end NaturalConversation

namespace NaturalConversation

/-- The text fragments of a typed content-part list, in part order (the
parts with `content["type"] == "text"`). -/
def textsOf (ps : List ContentPart) : List String :=
  ps.filterMap fun p => if p.ctype = "text" then some p.text else none

/-- The plain-string contents of a message run, in message order. -/
def stringContents (us : List Message) : List String :=
  us.filterMap fun m =>
    match m.content with
    | .str s => some s
    | .parts _ => none

/-- The text fragments of the list-content messages of a run, grouped by
message, in message order. -/
def partGroups (us : List Message) : List (List String) :=
  us.filterMap fun m =>
    match m.content with
    | .str _ => none
    | .parts ps => some (textsOf ps)

/-- Following the spec's words: the user text fragments of a trailing run of
user messages in chronological order — each message contributes its plain
string or its text parts in order, messages in order of arrival. Used as the
refinement comparison for the extraction filter. -/
def chronologicalFragments (us : List Message) : List String :=
  (us.map fun m =>
    match m.content with
    | .str s => [s]
    | .parts ps => textsOf ps).flatten

/-- The accumulator action of the user-message arm of the `reversed(messages)`
loop, applied to a whole (already reversed) run of user messages. -/
def userAcc : List Message → List String → List String
  | [], acc => acc
  | m :: rest, acc =>
    userAcc rest
      (match m.content with
       | .str s => acc ++ [s]
       | .parts ps => insertParts acc ps)

lemma insertParts_eq (ps : List ContentPart) (acc : List String) :
    insertParts acc ps = (textsOf ps).reverse ++ acc := by
  induction ps generalizing acc with
  | nil => simp [insertParts, textsOf]
  | cons p ps ih =>
    by_cases h : p.ctype = "text" <;>
      simp [insertParts, textsOf, List.filterMap_cons, h, ih]

lemma userAcc_append (A B : List Message) (acc : List String) :
    userAcc (A ++ B) acc = userAcc B (userAcc A acc) := by
  induction A generalizing acc with
  | nil => simp [userAcc]
  | cons m A ih => simp [userAcc, ih]

lemma userAcc_reverse_eq (us : List Message) :
    (userAcc us.reverse []).reverse =
      stringContents us ++ (partGroups us).reverse.flatten := by
  induction us with
  | nil => simp [userAcc, stringContents, partGroups]
  | cons u rest ih =>
    rw [List.reverse_cons, userAcc_append]
    cases hc : u.content with
    | str s =>
      simp [userAcc, hc, stringContents, partGroups, List.filterMap_cons, ih]
    | parts ps =>
      simp only [userAcc, hc, insertParts_eq]
      simp [stringContents, partGroups, List.filterMap_cons, hc, ih,
        List.flatten_append, List.append_assoc]

lemma collectUser_user_prefix (vs rest : List Message) (acc : List String)
    (hvs : ∀ u ∈ vs, u.role = "user") :
    collectUser (vs ++ rest) acc = collectUser rest (userAcc vs acc) := by
  induction vs generalizing acc with
  | nil => simp [userAcc]
  | cons m vs ih =>
    have hm : m.role = "user" := hvs m (by simp)
    have hvs2 : ∀ u ∈ vs, u.role = "user" := fun u hu => hvs u (by simp [hu])
    cases hc : m.content with
    | str s => simp [collectUser, userAcc, hm, hc, ih _ hvs2]
    | parts ps => simp [collectUser, userAcc, hm, hc, ih _ hvs2]

lemma collectUser_decomp (pre : List Message) (m : Message) (us : List Message)
    (hm : m.role ≠ "user") (hus : ∀ u ∈ us, u.role = "user") :
    collectUser (pre ++ m :: us).reverse [] =
      (userAcc us.reverse [],
       if m.role = "assistant" then some m else none) := by
  have hshape : (pre ++ m :: us).reverse = us.reverse ++ (m :: pre.reverse) := by
    simp [List.reverse_append]
  rw [hshape,
    collectUser_user_prefix us.reverse (m :: pre.reverse) []
      (fun u hu => hus u (List.mem_reverse.mp hu))]
  simp [collectUser, hm]

end NaturalConversation

namespace NaturalConversation

/-- C6 counterexample: on a context whose trailing user block consists of two
list-content messages (first `"a"`, then `"b"`), the filter synthesizes the
user text `"b a"` — the two messages' parts in *reverse* chronological
order — while the chronological concatenation the claim describes is
`"a b"`. -/
theorem context_extraction_order_cex :
    processContextFrame
      [⟨"assistant", .str "hi"⟩,
       ⟨"user", .parts [⟨"text", "a"⟩]⟩,
       ⟨"user", .parts [⟨"text", "b"⟩]⟩] =
      some [⟨"system", .str classifier_statement⟩,
            ⟨"assistant", .str "hi"⟩,
            ⟨"user", .str "b a"⟩] ∧
    " ".intercalate (chronologicalFragments
      [⟨"user", .parts [⟨"text", "a"⟩]⟩,
       ⟨"user", .parts [⟨"text", "b"⟩]⟩]) = "a b" ∧
    ("b a" : String) ≠ "a b" :=
  ⟨rfl, rfl, by decide⟩

/-- C6 amended: for a context splitting as `pre ++ m :: us` with `us` the
trailing run of user messages and `m` the first non-user entry from the
back, the filter emits exactly one request iff `us` contains at least one
text fragment, composed of the fixed instruction, the anchor `m` iff it is
assistant-authored, and one synthesized user message whose text concatenates
the plain-string contents in chronological order followed by the text parts
of the list-content messages grouped by message in *reverse* chronological
message order (parts within one message in order). -/
theorem context_extraction_amended (pre : List Message) (m : Message)
    (us : List Message) (hm : m.role ≠ "user")
    (hus : ∀ u ∈ us, u.role = "user") :
    processContextFrame (pre ++ m :: us) =
      (if stringContents us ++ (partGroups us).reverse.flatten = [] then none
       else some ([⟨"system", .str classifier_statement⟩]
         ++ (if m.role = "assistant" then [m] else [])
         ++ [⟨"user", .str (" ".intercalate
              (stringContents us ++ (partGroups us).reverse.flatten))⟩])) := by
  unfold processContextFrame
  rw [collectUser_decomp pre m us hm hus]
  have hrev := userAcc_reverse_eq us
  by_cases hU : userAcc us.reverse [] = []
  · have hC : stringContents us ++ (partGroups us).reverse.flatten = [] := by
      rw [← hrev, hU, List.reverse_nil]
    simp [hU, hC]
  · have hC : stringContents us ++ (partGroups us).reverse.flatten ≠ [] := by
      rw [← hrev]
      simpa using hU
    rw [if_neg hC]
    have hUe : (userAcc us.reverse []).isEmpty = false := by
      simpa using hU
    simp only [hUe, Bool.false_eq_true, if_false]
    rw [hrev]
    by_cases hro : m.role = "assistant" <;> simp [hro]

/-- Witness for C6 amended on a one-message trailing user run. -/
theorem context_extraction_amended_w :
    processContextFrame
      ([] ++ (⟨"assistant", .str "hi"⟩ : Message) ::
        [(⟨"user", .str "ok"⟩ : Message)]) =
      (if stringContents [⟨"user", .str "ok"⟩]
           ++ (partGroups [⟨"user", .str "ok"⟩]).reverse.flatten = [] then none
       else some ([⟨"system", .str classifier_statement⟩]
         ++ (if (⟨"assistant", .str "hi"⟩ : Message).role = "assistant"
             then [(⟨"assistant", .str "hi"⟩ : Message)] else [])
         ++ [⟨"user", .str (" ".intercalate
              (stringContents [⟨"user", .str "ok"⟩]
                ++ (partGroups [⟨"user", .str "ok"⟩]).reverse.flatten))⟩])) :=
  context_extraction_amended [] ⟨"assistant", .str "hi"⟩ [⟨"user", .str "ok"⟩]
    (by decide) (by decide)

end NaturalConversation
